import Mathlib

/- Verification of the slideshow composition engine of this repository
   (src/video_generator.py, function generate_slideshow and its helpers).
   Times and durations are modelled as exact rationals; Python float
   arithmetic is embedded as arithmetic on the rationals, and Python's
   int() conversion as truncation toward zero. -/

/-- Nominal transition duration in seconds: the constant 1.0 assigned to
the variable transition_duration at the top of generate_slideshow. -/
def transition_nominal : ℚ := 1

/-- Variable raw_duration_needed of generate_slideshow: when more than one
image, duration plus (num_images - 1) times the nominal transition duration,
else just the requested duration. -/
def raw_duration_needed (numImages : ℕ) (duration : ℚ) : ℚ :=
  if numImages > 1 then duration + (numImages - 1 : ℕ) * transition_nominal
  else duration

/-- Variable clip_duration of generate_slideshow: raw_duration_needed divided
by num_images. -/
def clip_duration (numImages : ℕ) (duration : ℚ) : ℚ :=
  raw_duration_needed numImages duration / numImages

/-- The clamp step of generate_slideshow: if transition_duration exceeds
clip_duration / 2 it is reassigned to clip_duration / 2. The result is the
transition length actually used by the rest of the function. -/
def effective_transition (clipDur : ℚ) : ℚ :=
  if transition_nominal > clipDur / 2 then clipDur / 2 else transition_nominal

/-- Segment start times produced by the loop of generate_slideshow: the first
clip starts at 0; each later clip starts at the running current_start minus
the (clamped) transition duration, where current_start is the previous clip's
start plus clip_duration. -/
def segment_start (S T : ℚ) : ℕ → ℚ
  | 0 => 0
  | i + 1 => segment_start S T i + S - T

/-- End time of the last segment for numImages images and the requested
duration: its start time plus clip_duration. -/
def last_end (N : ℕ) (D : ℚ) : ℚ :=
  segment_start (clip_duration N D) (effective_transition (clip_duration N D)) (N - 1)
    + clip_duration N D

/-- The list valid_transitions of generate_slideshow. -/
def valid_transitions : List String :=
  ["crossfade", "slide_left", "slide_right", "slide_top", "slide_bottom"]

/-- Resolution of the variable trans_type for the seam entered by clip i of
generate_slideshow. The function pick models the stream of draws made by
random.choice(valid_transitions): pick i is the draw the loop iteration for
clip i would make. A transition_effect outside the recognized values falls
through to the literal string "random". -/
def resolve_trans_type (transitionEffect : String) (pick : ℕ → String) (i : ℕ) :
    String :=
  if transitionEffect = "random" then pick i
  else if transitionEffect ∈ valid_transitions then transitionEffect
  else "random"

/-- Screen edges, used as the side argument of the slide-in effect. -/
inductive Side where
  | left
  | right
  | top
  | bottom
deriving DecidableEq

/-- The entrance effects generate_slideshow attaches to a clip: CrossFadeIn
with a duration, or SlideIn with a duration and a side. -/
inductive Effect where
  | crossFadeIn (duration : ℚ)
  | slideIn (duration : ℚ) (side : Side)
deriving DecidableEq

/-- The if/elif chain of generate_slideshow mapping the resolved trans_type to
the effect attached to the incoming clip; a string matching no branch attaches
no effect. -/
def apply_transition (transType : String) (T : ℚ) : Option Effect :=
  if transType = "crossfade" then some (Effect.crossFadeIn T)
  else if transType = "slide_left" then some (Effect.slideIn T Side.right)
  else if transType = "slide_right" then some (Effect.slideIn T Side.left)
  else if transType = "slide_top" then some (Effect.slideIn T Side.bottom)
  else if transType = "slide_bottom" then some (Effect.slideIn T Side.top)
  else none

/-- Modelled from the spec: the moviepy library (not part of this repository)
gives SlideIn(d, side) the meaning that the incoming clip enters from the named
screen edge; CrossFadeIn has no entry edge. -/
def entry_edge : Effect → Option Side
  | Effect.crossFadeIn _ => none
  | Effect.slideIn _ s => some s

/-- Modelled from the spec: the moviepy library (not part of this repository)
gives CrossFadeIn(d) the meaning that the incoming clip's opacity ramps
linearly from 0 at relative time 0 to 1 at relative time d; a slide-in effect
has no opacity ramp. -/
def crossfade_opacity : Effect → ℚ → Option ℚ
  | Effect.crossFadeIn d, t => some (t / d)
  | Effect.slideIn _ _, _ => none

/-- One scheduled image clip: its start time, duration, resolved trans_type
(none for the first clip, which gets no incoming transition), and the attached
entrance effect. -/
structure Segment where
  start : ℚ
  duration : ℚ
  transType : Option String
  effect : Option Effect

/-- The clip built by iteration i of the loop of generate_slideshow, given the
computed clip_duration S and clamped transition duration T. -/
def build_segment (S T : ℚ) (transitionEffect : String) (pick : ℕ → String)
    (i : ℕ) : Segment :=
  { start := segment_start S T i
    duration := S
    transType := if i = 0 then none
      else some (resolve_trans_type transitionEffect pick i)
    effect := if i = 0 then none
      else apply_transition (resolve_trans_type transitionEffect pick i) T }

/-- The segment list entry i as generate_slideshow instantiates build_segment:
with S the computed clip_duration and T the clamped transition duration. -/
def schedule_segment (N : ℕ) (D : ℚ) (transitionEffect : String)
    (pick : ℕ → String) (i : ℕ) : Segment :=
  build_segment (clip_duration N D) (effective_transition (clip_duration N D))
    transitionEffect pick i

/-- The zoom_ratio computed in generate_slideshow: max(0.0, zoom_factor - 1.0). -/
def zoom_r (zoomFactor : ℚ) : ℚ := max 0 (zoomFactor - 1)

/-- The resize_func closure inside apply_zoom_effect: the scale factor at time
t of a clip of the given duration, namely 1 + zoom_ratio * (t / duration). -/
def resize_func (clipDur zoomR t : ℚ) : ℚ := 1 + zoomR * (t / clipDur)

/-- Python's int() conversion on a rational: truncation toward zero. -/
def pyInt (q : ℚ) : ℤ := if 0 ≤ q then ⌊q⌋ else -⌊-q⌋

/-- The scroll_func closure of generate_slideshow: position of the caption
clip at time t, for output resolution (resW, resH), rendered text width textW,
rendered band height imageH, and the bottom margin. Start x is the output
width, end x the negated text width, y is fixed; both coordinates pass through
Python's int(). A zero duration short-circuits to the origin. -/
def scroll_func (resW resH textW imageH bottomMargin : ℤ) (duration t : ℚ) :
    ℤ × ℤ :=
  if duration = 0 then (0, 0)
  else
    let startX : ℚ := resW
    let endX : ℚ := -textW
    let x : ℚ := startX + (endX - startX) * (t / duration)
    let y : ℚ := resH - imageH - bottomMargin
    (pyInt x, pyInt y)

/-- The audio attachment step of generate_slideshow: the duration of the audio
track attached to the composition. Python's truthiness check on audio_path
rejects None and the empty string; os.path.exists is modelled by the
fileExists predicate. A decoded track longer than the video is cut to the
video's duration, otherwise attached with its own duration. -/
def audio_attach (videoDur : ℚ) (audioPath : Option String)
    (fileExists : String → Bool) (audioDur : ℚ) : Option ℚ :=
  match audioPath with
  | none => none
  | some p =>
      if p ≠ "" ∧ fileExists p then
        some (if audioDur > videoDur then videoDur else audioDur)
      else none

/-- The final composition handed to write_videofile: the overall video
duration, the scheduled image segments, whether a caption layer was added, and
the duration of the attached audio track (none when silent). -/
structure FinalVideo where
  videoDuration : ℚ
  segments : List Segment
  hasCaption : Bool
  audioDur : Option ℚ

/-- Outcome of one call to generate_slideshow. earlyReturn is the plain
Python return taken when no images are given, carrying the messages logged on
the way out; completed carries the composition handed to the encoder; raised
stands for a Python exception propagating to the caller — none of the
modelled branches produces it, since the empty-input branch returns instead of
raising. -/
inductive RenderResult where
  | earlyReturn (log : List String)
  | completed (comp : FinalVideo)
  | raised (err : String)

/-- Whether a render outcome is an exception propagating to the caller. -/
def RenderResult.isRaised : RenderResult → Bool
  | RenderResult.raised _ => true
  | _ => false

/-- Shallow embedding of generate_slideshow itself on the parts the claims
concern: the empty-input guard, the schedule of image clips, the explicit
truncation of the composite image stack to the requested duration (the
with_duration call on the CompositeVideoClip), the caption layer spanning the
requested duration (the composite of both takes the larger of the two ends),
and the audio attachment. textWidth is the rendered caption width returned by
create_text_image (zero meaning no caption layer). -/
def generate_slideshow (imagePaths : List String) (textWidth : ℕ)
    (duration : ℚ) (transitionEffect : String) (pick : ℕ → String)
    (audioPath : Option String) (fileExists : String → Bool) (audioDur : ℚ) :
    RenderResult :=
  if imagePaths = [] then
    RenderResult.earlyReturn ["No images provided."]
  else
    let numImages := imagePaths.length
    let segs := (List.range numImages).map
      (schedule_segment numImages duration transitionEffect pick)
    let backgroundDur := duration
    let hasCaption := textWidth ≠ 0
    let videoDur := if hasCaption then max backgroundDur duration else backgroundDur
    RenderResult.completed
      { videoDuration := videoDur
        segments := segs
        hasCaption := hasCaption
        audioDur := audio_attach videoDur audioPath fileExists audioDur }

/- Helper lemmas about the schedule arithmetic. -/

/-- Closed form of the loop's start times: clip i starts at i * (S - T). -/
theorem segment_start_closed (S T : ℚ) (i : ℕ) :
    segment_start S T i = i * (S - T) := by
  induction i with
  | zero => simp [segment_start]
  | succ n ih =>
      simp only [segment_start, ih, Nat.cast_succ]
      ring

/-- The clamped transition duration never exceeds half the clip duration. -/
theorem effective_transition_le_half (S : ℚ) :
    effective_transition S ≤ S / 2 := by
  unfold effective_transition transition_nominal
  split <;> linarith

/-- With at least one image and a positive requested duration, the computed
clip duration is positive. -/
theorem clip_duration_pos (N : ℕ) (D : ℚ) (h1 : 1 ≤ N) (hD : 0 < D) :
    0 < clip_duration N D := by
  unfold clip_duration raw_duration_needed transition_nominal
  have hN : (0 : ℚ) < N := by exact_mod_cast h1
  split
  · have : (0 : ℚ) ≤ (N - 1 : ℕ) := Nat.cast_nonneg _
    apply div_pos (by linarith) hN
  · exact div_pos hD hN

/-- With no clamping (clip duration at least twice the nominal transition) the
schedule arithmetic is exact: the last clip ends at the requested duration. -/
theorem last_end_eq_of_no_clamp (N : ℕ) (D : ℚ) (h1 : 1 ≤ N)
    (h : N = 1 ∨ 2 * transition_nominal ≤ clip_duration N D) :
    last_end N D = D := by
  rcases h with h | h
  · subst h
    simp [last_end, segment_start, clip_duration, raw_duration_needed]
  · have hT : effective_transition (clip_duration N D) = transition_nominal := by
      unfold effective_transition
      rw [if_neg]
      rw [not_lt]
      unfold transition_nominal at h ⊢
      linarith
    rcases Nat.lt_or_ge 1 N with hN2 | hN1
    · have hNq : (0 : ℚ) < N := by positivity
      have hcast : ((N - 1 : ℕ) : ℚ) = (N : ℚ) - 1 := by
        have : 1 ≤ N := h1
        push_cast [Nat.cast_sub this]
        ring
      have hclip : clip_duration N D * N = D + ((N : ℚ) - 1) * transition_nominal := by
        unfold clip_duration raw_duration_needed
        rw [if_pos hN2]
        rw [div_mul_cancel₀ _ (ne_of_gt hNq), hcast]
      unfold last_end
      rw [segment_start_closed, hT, hcast]
      unfold transition_nominal at hclip ⊢
      nlinarith [hclip]
    · have : N = 1 := le_antisymm hN1 h1
      subst this
      simp [last_end, segment_start, clip_duration, raw_duration_needed]

/-- Claim C1 fails as stated at 2 images and requested duration 1 second: the
computed schedule puts the last segment's end at 1.5 s, farther than 1e-3 from
the requested 1 s (the clamp shortens the transition but the per-clip duration
is not recomputed). -/
theorem C1_counterexample :
    1 ≤ 2 ∧ 2 ≤ 100 ∧ (0 : ℚ) < 1 ∧ ¬ (|last_end 2 1 - 1| ≤ 1 / 1000) := by
  refine ⟨by norm_num, by norm_num, by norm_num, ?_⟩
  have : last_end 2 1 = 3 / 2 := by
    norm_num [last_end, segment_start, clip_duration, raw_duration_needed,
      effective_transition, transition_nominal]
  rw [this]
  rw [abs_le]
  norm_num

/-- Claim C1 amended: for 1 to 100 images and positive requested duration D,
the last segment's end time equals D within 1e-3 (indeed exactly), provided the
clamp does not fire, that is, there is a single image or the computed per-clip
duration is at least twice the nominal transition duration. -/
theorem C1_last_end_amended (N : ℕ) (D : ℚ) (h1 : 1 ≤ N) (h100 : N ≤ 100)
    (hD : 0 < D) (hnc : N = 1 ∨ 2 * transition_nominal ≤ clip_duration N D) :
    |last_end N D - D| ≤ 1 / 1000 := by
  rw [last_end_eq_of_no_clamp N D h1 hnc]
  simp

/-- Witness for C1 amended at 3 images and 10 seconds. -/
theorem C1_last_end_amended_witness :
    (1 ≤ 3 ∧ 3 ≤ 100 ∧ (0 : ℚ) < 10 ∧
      (3 = 1 ∨ 2 * transition_nominal ≤ clip_duration 3 10)) ∧
    |last_end 3 10 - 10| ≤ 1 / 1000 := by
  have hnc : (3 = 1 ∨ 2 * transition_nominal ≤ clip_duration 3 10) := by
    right
    norm_num [clip_duration, raw_duration_needed, transition_nominal]
  exact ⟨⟨by norm_num, by norm_num, by norm_num, hnc⟩,
    C1_last_end_amended 3 10 (by norm_num) (by norm_num) (by norm_num) hnc⟩

/-- Claim C2: with the nominal transition duration 1.0 and computed clip
duration S, whenever S is below twice the nominal duration the clamped
transition duration is exactly S / 2; in consequence the transition length of
a seam never exceeds half the duration of either adjacent segment, every
segment having duration S. -/
theorem C2_transition_clamp (S : ℚ) :
    (S < 2 * transition_nominal → effective_transition S = S / 2) ∧
    effective_transition S ≤ S / 2 ∧
    (∀ mode pick i,
      (build_segment S (effective_transition S) mode pick i).duration = S) := by
  refine ⟨?_, effective_transition_le_half S, ?_⟩
  · intro h
    unfold effective_transition transition_nominal at *
    rw [if_pos (by linarith)]
  · intro mode pick i
    simp [build_segment]

/-- Witness for C2 at clip duration 1: the clamp fires and yields 1 / 2. -/
theorem C2_transition_clamp_witness :
    (1 : ℚ) < 2 * transition_nominal ∧ effective_transition 1 = 1 / 2 :=
  ⟨by norm_num [transition_nominal],
    (C2_transition_clamp 1).1 (by norm_num [transition_nominal])⟩

/-- Claim C3: for a positive requested duration and at least one image,
segment 0 starts at 0 with no incoming transition; each segment i + 1 starts
at the previous segment's start plus its duration minus the clamped transition
duration; start times are monotonically non-decreasing; and each pair of
consecutive segments overlaps by exactly the clamped transition duration. -/
theorem C3_schedule_invariants (N : ℕ) (D : ℚ) (mode : String)
    (pick : ℕ → String) (h1 : 1 ≤ N) (hD : 0 < D) :
    (schedule_segment N D mode pick 0).start = 0 ∧
    (schedule_segment N D mode pick 0).effect = none ∧
    (∀ i, (schedule_segment N D mode pick (i + 1)).start
        = (schedule_segment N D mode pick i).start
          + (schedule_segment N D mode pick i).duration
          - effective_transition (clip_duration N D)) ∧
    (∀ i j, i ≤ j → (schedule_segment N D mode pick i).start
        ≤ (schedule_segment N D mode pick j).start) ∧
    (∀ i, (schedule_segment N D mode pick i).start
          + (schedule_segment N D mode pick i).duration
          - (schedule_segment N D mode pick (i + 1)).start
        = effective_transition (clip_duration N D)) := by
  have hS : 0 < clip_duration N D := clip_duration_pos N D h1 hD
  have hTle : effective_transition (clip_duration N D) ≤ clip_duration N D / 2 :=
    effective_transition_le_half _
  have hST : 0 ≤ clip_duration N D - effective_transition (clip_duration N D) := by
    linarith
  refine ⟨?_, ?_, ?_, ?_, ?_⟩
  · simp [schedule_segment, build_segment, segment_start]
  · simp [schedule_segment, build_segment]
  · intro i
    simp [schedule_segment, build_segment, segment_start]
  · intro i j hij
    simp only [schedule_segment, build_segment, segment_start_closed]
    have : (i : ℚ) ≤ (j : ℚ) := by exact_mod_cast hij
    exact mul_le_mul_of_nonneg_right this hST
  · intro i
    simp only [schedule_segment, build_segment, segment_start_closed]
    push_cast
    ring

/-- Witness for C3 at 2 images, duration 10, fixed crossfade mode. -/
theorem C3_schedule_invariants_witness :
    (1 ≤ 2 ∧ (0 : ℚ) < 10) ∧
    (schedule_segment 2 10 "crossfade" (fun _ => "crossfade") 0).start = 0 ∧
    (schedule_segment 2 10 "crossfade" (fun _ => "crossfade") 0).effect = none := by
  refine ⟨⟨by norm_num, by norm_num⟩, ?_⟩
  have h := C3_schedule_invariants 2 10 "crossfade" (fun _ => "crossfade")
    (by norm_num) (by norm_num)
  exact ⟨h.1, h.2.1⟩

/-- Claim C4 fails as stated: on an empty image list generate_slideshow logs
the message and takes a plain return — a normal, non-error return to the
caller — rather than raising any error. -/
theorem C4_counterexample :
    generate_slideshow [] 0 30 "random" (fun _ => "crossfade") none
        (fun _ => false) 0
      = RenderResult.earlyReturn ["No images provided."] ∧
    (generate_slideshow [] 0 30 "random" (fun _ => "crossfade") none
        (fun _ => false) 0).isRaised = false := by
  exact ⟨rfl, rfl⟩

/-- Claim C4 amended: given an empty image list, generate_slideshow returns
early before any processing, emitting the single descriptive message via the
log, and returns normally — no error is raised and no composition is
produced. -/
theorem C4_empty_images_amended (textWidth : ℕ) (duration : ℚ) (mode : String)
    (pick : ℕ → String) (ap : Option String) (fe : String → Bool) (ad : ℚ) :
    generate_slideshow [] textWidth duration mode pick ap fe ad
      = RenderResult.earlyReturn ["No images provided."] := rfl

/-- Claim C5: the five concrete transition types map to the spec's entrance
directions — crossfade ramps opacity from 0 at the seam start to 1 after the
transition duration, slide_left enters from the right edge, slide_right from
the left, slide_top from the bottom, slide_bottom from the top; a fixed
recognized mode resolves every seam to that same type; in random mode seam i
resolves to the i-th per-seam draw, which lies in the five valid types. -/
theorem C5_transition_semantics (T : ℚ) (pick : ℕ → String)
    (hpick : ∀ i, pick i ∈ valid_transitions) (hT : 0 < T) :
    (apply_transition "crossfade" T = some (Effect.crossFadeIn T) ∧
      crossfade_opacity (Effect.crossFadeIn T) 0 = some 0 ∧
      crossfade_opacity (Effect.crossFadeIn T) T = some 1) ∧
    (apply_transition "slide_left" T = some (Effect.slideIn T Side.right) ∧
      entry_edge (Effect.slideIn T Side.right) = some Side.right) ∧
    (apply_transition "slide_right" T = some (Effect.slideIn T Side.left) ∧
      entry_edge (Effect.slideIn T Side.left) = some Side.left) ∧
    (apply_transition "slide_top" T = some (Effect.slideIn T Side.bottom) ∧
      entry_edge (Effect.slideIn T Side.bottom) = some Side.bottom) ∧
    (apply_transition "slide_bottom" T = some (Effect.slideIn T Side.top) ∧
      entry_edge (Effect.slideIn T Side.top) = some Side.top) ∧
    (∀ mode, mode ∈ valid_transitions →
      ∀ i, resolve_trans_type mode pick i = mode) ∧
    (∀ i, resolve_trans_type "random" pick i = pick i ∧
      pick i ∈ valid_transitions) := by
  refine ⟨⟨rfl, ?_, ?_⟩, ⟨rfl, rfl⟩, ⟨rfl, rfl⟩, ⟨rfl, rfl⟩, ⟨rfl, rfl⟩,
    ?_, ?_⟩
  · simp [crossfade_opacity]
  · simp [crossfade_opacity, div_self (ne_of_gt hT)]
  · intro mode hm i
    unfold resolve_trans_type
    rw [if_neg, if_pos hm]
    intro h
    rw [h] at hm
    revert hm
    decide
  · intro i
    exact ⟨by unfold resolve_trans_type; rw [if_pos rfl], hpick i⟩

/-- Witness for C5 at transition duration 1 and a constant crossfade draw. -/
theorem C5_transition_semantics_witness :
    apply_transition "slide_left" 1 = some (Effect.slideIn 1 Side.right) ∧
    crossfade_opacity (Effect.crossFadeIn 1) 1 = some 1 := by
  have hp : ∀ i : ℕ, (fun _ : ℕ => "crossfade") i ∈ valid_transitions := by
    intro i
    show "crossfade" ∈ valid_transitions
    decide
  have h := C5_transition_semantics 1 (fun _ => "crossfade") hp (by norm_num)
  exact ⟨h.2.1.1, h.1.2.2⟩

/-- Claim C6: for positive clip duration d and zoom factor at least 1, the
scale function of the pan and zoom effect is 1 + (zoom_factor - 1) * (t / d):
it is 1 at time 0 and the full zoom factor at time d, linear in t. -/
theorem C6_zoom_scale (d zf : ℚ) (hd : 0 < d) (hzf : 1 ≤ zf) :
    resize_func d (zoom_r zf) 0 = 1 ∧
    resize_func d (zoom_r zf) d = zf ∧
    (∀ t, resize_func d (zoom_r zf) t = 1 + (zf - 1) * (t / d)) := by
  have hr : zoom_r zf = zf - 1 := max_eq_right (by linarith)
  refine ⟨?_, ?_, ?_⟩
  · simp [resize_func]
  · rw [hr]
    unfold resize_func
    rw [div_self (ne_of_gt hd)]
    ring
  · intro t
    rw [hr]
    rfl

/-- Witness for C6 at duration 2 and zoom factor 1.2. -/
theorem C6_zoom_scale_witness :
    ((0 : ℚ) < 2 ∧ (1 : ℚ) ≤ 6 / 5) ∧
    resize_func 2 (zoom_r (6 / 5)) 0 = 1 ∧
    resize_func 2 (zoom_r (6 / 5)) 2 = 6 / 5 := by
  have h := C6_zoom_scale 2 (6 / 5) (by norm_num) (by norm_num)
  exact ⟨⟨by norm_num, by norm_num⟩, h.1, h.2.1⟩

/-- Python's int() of a value that is already an integer is that integer. -/
theorem pyInt_intCast (z : ℤ) : pyInt (z : ℚ) = z := by
  unfold pyInt
  split
  · exact Int.floor_intCast z
  · rw [← Int.cast_neg, Int.floor_intCast]
    ring

/-- Claim C7 fails as stated: both coordinates pass through Python's int(), so
at an intermediate time the x coordinate is the truncation of the linear
interpolation, not the interpolation itself. At output width 1000, text width
100, duration 3 and t = 1 the interpolated x is 1900 / 3, not an integer. -/
theorem C7_counterexample :
    (0 : ℚ) < 3 ∧
    ¬ ((((scroll_func 1000 1000 100 60 50 3 1).1 : ℤ) : ℚ)
        = 1000 + (-100 - 1000) * ((1 : ℚ) / 3)) := by
  refine ⟨by norm_num, ?_⟩
  have h1 : scroll_func 1000 1000 100 60 50 3 1 = (633, 890) := by
    norm_num [scroll_func, pyInt]
  rw [h1]
  norm_num

/-- Claim C7 amended: for positive duration D the caption position at time t is
the integer truncation of the linear interpolation in x paired with the fixed
integer y coordinate; at t = 0 it is exactly (output width, fixed y), at t = D
exactly (negated text width, fixed y), and with D = 0 it is (0, 0) for all t. -/
theorem C7_scroll_amended (resW resH textW imageH m : ℤ) (D : ℚ) (hD : 0 < D) :
    (∀ t, scroll_func resW resH textW imageH m D t
        = (pyInt ((resW : ℚ) + (-(textW : ℚ) - (resW : ℚ)) * (t / D)),
           resH - imageH - m)) ∧
    scroll_func resW resH textW imageH m D 0 = (resW, resH - imageH - m) ∧
    scroll_func resW resH textW imageH m D D = (-textW, resH - imageH - m) ∧
    (∀ t, scroll_func resW resH textW imageH m 0 t = (0, 0)) := by
  have hD0 : D ≠ 0 := ne_of_gt hD
  have hy : pyInt ((resH : ℚ) - (imageH : ℚ) - (m : ℚ)) = resH - imageH - m := by
    have h : ((resH : ℚ) - imageH - m) = ((resH - imageH - m : ℤ) : ℚ) := by
      push_cast
      ring
    rw [h, pyInt_intCast]
  have hmain : ∀ t, scroll_func resW resH textW imageH m D t
      = (pyInt ((resW : ℚ) + (-(textW : ℚ) - (resW : ℚ)) * (t / D)),
         resH - imageH - m) := by
    intro t
    unfold scroll_func
    rw [if_neg hD0]
    show (pyInt ((resW : ℚ) + (-(textW : ℚ) - (resW : ℚ)) * (t / D)),
      pyInt ((resH : ℚ) - (imageH : ℚ) - (m : ℚ))) = _
    rw [hy]
  refine ⟨hmain, ?_, ?_, ?_⟩
  · rw [hmain 0]
    have h : (resW : ℚ) + (-(textW : ℚ) - (resW : ℚ)) * ((0 : ℚ) / D)
        = ((resW : ℤ) : ℚ) := by
      rw [zero_div]
      ring
    rw [h, pyInt_intCast]
  · rw [hmain D]
    have h : (resW : ℚ) + (-(textW : ℚ) - (resW : ℚ)) * (D / D)
        = ((-textW : ℤ) : ℚ) := by
      rw [div_self hD0]
      push_cast
      ring
    rw [h, pyInt_intCast]
  · intro t
    unfold scroll_func
    rw [if_pos rfl]

/-- Witness for C7 amended at resolution 1000 by 1000, text width 100, band
height 60, margin 50, duration 3. -/
theorem C7_scroll_amended_witness :
    (0 : ℚ) < 3 ∧
    scroll_func 1000 1000 100 60 50 3 0 = (1000, 890) ∧
    scroll_func 1000 1000 100 60 50 3 3 = (-100, 890) := by
  have h := C7_scroll_amended 1000 1000 100 60 50 3 (by norm_num)
  refine ⟨by norm_num, ?_, ?_⟩
  · rw [h.2.1]
    norm_num
  · rw [h.2.2.1]
    norm_num

/-- Claim C8: the attached audio track's duration never exceeds the video
duration — a decoded track longer than the video is cut to exactly the video
duration, one that is shorter or equal is attached unchanged, and a missing
path (None, the empty string, or a non-existent file) attaches nothing. -/
theorem C8_audio_reconcile (videoDur : ℚ) (ap : Option String)
    (fe : String → Bool) (ad : ℚ) :
    (∀ a, audio_attach videoDur ap fe ad = some a → a ≤ videoDur) ∧
    (∀ p, ap = some p → p ≠ "" → fe p = true → videoDur < ad →
      audio_attach videoDur ap fe ad = some videoDur) ∧
    (∀ p, ap = some p → p ≠ "" → fe p = true → ad ≤ videoDur →
      audio_attach videoDur ap fe ad = some ad) ∧
    (ap = none → audio_attach videoDur ap fe ad = none) ∧
    (∀ p, ap = some p → fe p = false → audio_attach videoDur ap fe ad = none) := by
  refine ⟨?_, ?_, ?_, ?_, ?_⟩
  · intro a h
    cases ap with
    | none => simp [audio_attach] at h
    | some p =>
        simp only [audio_attach] at h
        by_cases hc : (p ≠ "" ∧ fe p = true)
        · rw [if_pos hc] at h
          by_cases hgt : ad > videoDur
          · rw [if_pos hgt] at h
            exact le_of_eq (Option.some.inj h).symm
          · rw [if_neg hgt] at h
            rw [← Option.some.inj h]
            exact not_lt.mp hgt
        · rw [if_neg hc] at h
          exact absurd h (by simp)
  · intro p hp hne hfe hlt
    subst hp
    simp only [audio_attach]
    rw [if_pos (show p ≠ "" ∧ fe p = true from ⟨hne, hfe⟩), if_pos hlt]
  · intro p hp hne hfe hle
    subst hp
    simp only [audio_attach]
    rw [if_pos (show p ≠ "" ∧ fe p = true from ⟨hne, hfe⟩),
      if_neg (not_lt.mpr hle)]
  · intro h
    subst h
    rfl
  · intro p hp hfe
    subst hp
    have hcond : ¬(p ≠ "" ∧ fe p = true) := by
      intro hc
      rw [hfe] at hc
      exact Bool.noConfusion hc.2
    simp only [audio_attach]
    rw [if_neg hcond]

/-- Witness for C8: a 40 second track on a 30 second video is cut to 30
seconds; a 10 second track is attached unchanged. -/
theorem C8_audio_reconcile_witness :
    audio_attach 30 (some "a.mp3") (fun _ => true) 40 = some 30 ∧
    audio_attach 30 (some "a.mp3") (fun _ => true) 10 = some 10 := by
  constructor
  · exact (C8_audio_reconcile 30 (some "a.mp3") (fun _ => true) 40).2.1 "a.mp3"
      rfl (by decide) rfl (by norm_num)
  · exact (C8_audio_reconcile 30 (some "a.mp3") (fun _ => true) 10).2.2.1 "a.mp3"
      rfl (by decide) rfl (by norm_num)

/-- Claim C9: with a non-empty image list the composition handed to the
encoder has video duration exactly the requested duration — the image stack is
explicitly truncated to it, the caption layer spans the same duration, and
audio attachment never changes the video duration — even when the schedule
arithmetic puts the last segment's end past the requested duration. -/
theorem C9_final_duration (imagePaths : List String) (textWidth : ℕ) (D : ℚ)
    (mode : String) (pick : ℕ → String) (ap : Option String)
    (fe : String → Bool) (ad : ℚ) (hne : imagePaths ≠ []) :
    ∃ comp, generate_slideshow imagePaths textWidth D mode pick ap fe ad
        = RenderResult.completed comp ∧ comp.videoDuration = D := by
  unfold generate_slideshow
  rw [if_neg hne]
  refine ⟨_, rfl, ?_⟩
  show (if textWidth ≠ 0 then max D D else D) = D
  split
  · exact max_self D
  · rfl

/-- Witness for C9 at two images and requested duration 1 second — a case
where the clamp fires and the schedule's last end (1.5 s) overshoots, yet the
final video duration is the requested 1 s. -/
theorem C9_final_duration_witness :
    (["a.jpg", "b.jpg"] ≠ ([] : List String)) ∧
    ∃ comp, generate_slideshow ["a.jpg", "b.jpg"] 5 1 "random"
        (fun _ => "crossfade") none (fun _ => false) 0
      = RenderResult.completed comp ∧ comp.videoDuration = 1 :=
  ⟨by simp, C9_final_duration ["a.jpg", "b.jpg"] 5 1 "random"
    (fun _ => "crossfade") none (fun _ => false) 0 (by simp)⟩

/-- Claim C10: a transition_effect outside the recognized set resolves every
seam's trans_type to the literal string "random", which matches no branch of
the effect chain, so no entrance effect is attached; the schedule (start and
duration) is the same as under a recognized mode, no random draw is consulted,
and the render still completes without error. -/
theorem C10_unknown_mode (mode : String)
    (hmode : mode ∉ "random" :: valid_transitions)
    (pick pick2 : ℕ → String) (S T D : ℚ) (i : ℕ) :
    resolve_trans_type mode pick i = "random" ∧
    (build_segment S T mode pick i).effect = none ∧
    resolve_trans_type mode pick i = resolve_trans_type mode pick2 i ∧
    (build_segment S T mode pick i).start
      = (build_segment S T "crossfade" pick2 i).start ∧
    (build_segment S T mode pick i).duration
      = (build_segment S T "crossfade" pick2 i).duration ∧
    (∀ imagePaths : List String, imagePaths ≠ [] →
      ∃ comp, generate_slideshow imagePaths 0 D mode pick none (fun _ => false) 0
          = RenderResult.completed comp) := by
  rw [List.mem_cons] at hmode
  push_neg at hmode
  obtain ⟨hr, hv⟩ := hmode
  have hres : ∀ j, resolve_trans_type mode pick j = "random" := by
    intro j
    unfold resolve_trans_type
    rw [if_neg hr, if_neg hv]
  have happ : apply_transition "random" T = none := rfl
  refine ⟨hres i, ?_, ?_, rfl, rfl, ?_⟩
  · by_cases hi : i = 0
    · simp [build_segment, hi]
    · simp [build_segment, hi, hres i, happ]
  · have h2 : resolve_trans_type mode pick2 i = "random" := by
      unfold resolve_trans_type
      rw [if_neg hr, if_neg hv]
    rw [hres i, h2]
  · intro imagePaths hne
    unfold generate_slideshow
    rw [if_neg hne]
    exact ⟨_, rfl⟩

/-- Witness for C10 at the unrecognized mode "wipe". -/
theorem C10_unknown_mode_witness :
    ("wipe" ∉ "random" :: valid_transitions) ∧
    resolve_trans_type "wipe" (fun _ => "crossfade") 1 = "random" ∧
    (build_segment 4 1 "wipe" (fun _ => "crossfade") 1).effect = none := by
  have hm : "wipe" ∉ "random" :: valid_transitions := by decide
  have h := C10_unknown_mode "wipe" hm (fun _ => "crossfade")
    (fun _ => "slide_left") 4 1 0 1
  exact ⟨hm, h.1, h.2.1⟩
